import Mathlib

/-!
Shallow embedding of the voice-agent relay (src/index.js) in Lean 4.

The source is a Node.js server that bridges a Twilio media-stream WebSocket
with Deepgram ASR/TTS and OpenAI chat completion.  The parts embedded here
are the ones the verified claims are about:

* `getAgentResponse` (src/index.js lines 142-159): per-call conversation
  history kept in a `Map`, a system prompt, two `push`es and a `set`.
  The OpenAI call is an external collaborator and is passed in as a
  function `gen`; a thrown promise rejection is modelled as `Except.error`.
* the `transcriptReceived` listener (src/index.js lines 104-124): gating on
  `transcript && transcript.trim() !== ""`, one turn, one TTS buffer, one
  outbound `media` WebSocket send with the base64 of the whole buffer.
* the `ws.on("message")` handler (src/index.js lines 126-131):
  `JSON.parse` (which throws on malformed input, uncaught), then
  `dgLive.send(data.media.payload)` — the payload string is forwarded
  to the ASR handle as-is.
* the base64 codec: the outbound direction is `Buffer.toString("base64")`
  from the source; the decode direction does not occur in the source and is
  modelled from the spec (see `b64decode`).

Maps from call identifiers to histories are embedded as functions
`String → Option (List ChatMsg)`; JS in-place `push` on an array held by the
map is made explicit by returning the updated map.
-/

/-- Chat roles used by `getAgentResponse` ("system" / "user" / "assistant"). -/
inductive Role
  | system
  | user
  | assistant
  deriving DecidableEq

/-- One entry of a conversation history: `{ role, content }`. -/
structure ChatMsg where
  role : Role
  content : String
  deriving DecidableEq

/-- The fixed system turn that seeds every new history (src/index.js line 144). -/
def systemPrompt : ChatMsg :=
  ⟨Role.system, "You are a friendly AI voice agent. Keep responses short and natural."⟩

/-- The process-wide `conversationHistories` map, embedded as a function. -/
def Histories : Type := String → Option (List ChatMsg)

/-- The empty `conversationHistories` map. -/
def emptyHistories : Histories := fun _ => none

/--
Embedding of `getAgentResponse(userText, callSid)` (src/index.js lines 142-159).

`gen` stands for `openai.chat.completions.create`; a thrown rejection is
`Except.error ()`.  In the source, `history.push` mutates the array held by
the map in place, so when the generation call throws after the user entry was
pushed, the map still sees the pushed user entry whenever it already held that
array; the error branch returns that post-push map state.
-/
def getAgentResponse (gen : List ChatMsg → Except Unit String)
    (hist : Histories) (userText callSid : String) :
    Except Histories (String × Histories) :=
  let base := (hist callSid).getD [systemPrompt]
  let withUser := base ++ [ChatMsg.mk Role.user userText]
  match gen withUser with
  | Except.error _ =>
      Except.error (fun sid =>
        if sid = callSid then (hist callSid).map (fun _ => withUser) else hist sid)
  | Except.ok reply =>
      let full := withUser ++ [ChatMsg.mk Role.assistant reply]
      Except.ok (reply, fun sid => if sid = callSid then some full else hist sid)

/-- Wraps a total text generator as an `Except`-valued one that never throws. -/
def okGen (g : List ChatMsg → String) : List ChatMsg → Except Unit String :=
  fun h => Except.ok (g h)

/--
Iterates `getAgentResponse` over a list of user texts for the hard-coded call
identifier "call-1" used by the transcript listener (src/index.js line 110).
With a non-throwing generator the error branch is unreachable.
-/
def runTurns (g : List ChatMsg → String) (texts : List String)
    (hist : Histories) : Histories :=
  match texts with
  | [] => hist
  | t :: rest =>
      match getAgentResponse (okGen g) hist t "call-1" with
      | Except.ok (_, hNext) => runTurns g rest hNext
      | Except.error hErr => hErr

/-- The history stored for "call-1", defaulted exactly as the source does
(`conversationHistories.get(callSid) || [systemPrompt]`). -/
def callHist (h : Histories) : List ChatMsg :=
  (h "call-1").getD [systemPrompt]

/-- Number of assistant entries in a history list. -/
def assistantCount (l : List ChatMsg) : Nat :=
  l.countP (fun m => m.role = Role.assistant)

/-- Number of assistant entries in an optional map entry (absent = 0). -/
def assistantCountO (o : Option (List ChatMsg)) : Nat :=
  assistantCount (o.getD [])

/-- Whether an `Except` is a success. -/
def isOkE {α β : Type} (e : Except α β) : Bool :=
  match e with
  | Except.ok _ => true
  | Except.error _ => false

/-- The history map state after a successful turn: the "call-1" entry gains a
user entry and an assistant entry (abbreviation for lemma statements). -/
def turnReply (g : List ChatMsg → String) (hist : Histories) (t : String) : String :=
  g (((hist "call-1").getD [systemPrompt]) ++ [ChatMsg.mk Role.user t])

/-- The map state after a successful turn on "call-1" (abbreviation for lemma
statements; definitionally the map produced by `getAgentResponse`). -/
def turnHistories (g : List ChatMsg → String) (hist : Histories) (t : String) : Histories :=
  fun sid =>
    if sid = "call-1" then
      some ((((hist "call-1").getD [systemPrompt]) ++ [ChatMsg.mk Role.user t])
        ++ [ChatMsg.mk Role.assistant (turnReply g hist t)])
    else hist sid

/-- Definitional unfolding of one successful iterated turn. -/
theorem runTurns_cons (g : List ChatMsg → String) (t : String)
    (rest : List String) (hist : Histories) :
    runTurns g (t :: rest) hist = runTurns g rest (turnHistories g hist t) := rfl

/-- The map entry of the hard-coded call after a successful turn. -/
theorem callHist_turnHistories (g : List ChatMsg → String) (hist : Histories) (t : String) :
    callHist (turnHistories g hist t) =
      callHist hist ++ [ChatMsg.mk Role.user t,
        ChatMsg.mk Role.assistant (turnReply g hist t)] := by
  simp [callHist, turnHistories]

/-- Iterating turns appends exactly two entries per turn to the stored history. -/
theorem runTurns_call1_append (g : List ChatMsg → String) :
    ∀ (texts : List String) (hist : Histories), ∃ tail : List ChatMsg,
      callHist (runTurns g texts hist) = callHist hist ++ tail ∧
      tail.length = 2 * texts.length := by
  intro texts
  induction texts with
  | nil => exact fun hist => ⟨[], by simp [runTurns], rfl⟩
  | cons t rest ih =>
      intro hist
      obtain ⟨tail, heq, hlen⟩ := ih (turnHistories g hist t)
      refine ⟨ChatMsg.mk Role.user t ::
        ChatMsg.mk Role.assistant (turnReply g hist t) :: tail, ?_, ?_⟩
      · rw [runTurns_cons, heq, callHist_turnHistories]
        simp
      · simp [hlen]
        omega

/-- Claim C3 (amended): after any number of successful turns on one session the
fixed system turn is still at index 0, but the history is NOT capped: its
length is exactly `1 + 2 * number of turns`, growing without bound (the
source never trims `history`). -/
theorem history_unbounded_system_head (g : List ChatMsg → String) (texts : List String) :
    (callHist (runTurns g texts emptyHistories)).length = 1 + 2 * texts.length ∧
    (callHist (runTurns g texts emptyHistories)).head? = some systemPrompt := by
  obtain ⟨tail, heq, hlen⟩ := runTurns_call1_append g texts emptyHistories
  have hbase : callHist emptyHistories = [systemPrompt] := rfl
  rw [heq, hbase]
  refine ⟨?_, ?_⟩
  · simp [hlen]
    omega
  · simp

/-- Claim C3 counterexample: ten consecutive turns on one session already push
the stored history to 21 entries, so the claimed cap of 20 is violated. -/
theorem history_exceeds_cap_after_ten_turns :
    ¬ (callHist (runTurns (fun _ => "ok") (List.replicate 10 "hi") emptyHistories)).length ≤ 20 := by
  decide

/-- Claim C5 (amended): if the text-generation call throws during a turn, the
exception propagates out of `getAgentResponse` (there is no fallback apology
reply in the source), and no assistant entry is appended to any stored
history; the source also has no `turnInFlight` flag to clear. -/
theorem gen_failure_propagates (gen : List ChatMsg → Except Unit String)
    (hist : Histories) (u c : String)
    (hfail : gen (((hist c).getD [systemPrompt]) ++ [ChatMsg.mk Role.user u]) =
      Except.error ()) :
    ∃ hErr, getAgentResponse gen hist u c = Except.error hErr ∧
      ∀ sid, assistantCountO (hErr sid) = assistantCountO (hist sid) := by
  refine ⟨fun sid =>
      if sid = c then (hist c).map
        (fun _ => ((hist c).getD [systemPrompt]) ++ [ChatMsg.mk Role.user u])
      else hist sid, ?_, ?_⟩
  · unfold getAgentResponse
    simp only [hfail]
  · intro sid
    by_cases hs : sid = c
    · subst hs
      cases hc : hist sid with
      | none => simp [hc]
      | some l =>
          simp only [hc, if_pos rfl, Option.map_some, Option.getD_some,
            assistantCountO, Option.getD]
          simp [assistantCount, List.countP_append, List.countP_cons]
    · simp [hs]

/-- Claim C5 witness: a generator that always throws at the concrete inputs. -/
theorem gen_failure_propagates_witness :
    ∃ hErr, getAgentResponse (fun _ => Except.error ()) emptyHistories "hi" "call-1" =
        Except.error hErr ∧
      ∀ sid, assistantCountO (hErr sid) = assistantCountO (emptyHistories sid) :=
  gen_failure_propagates (fun _ => Except.error ()) emptyHistories "hi" "call-1" rfl

/-- Claim C5 counterexample: with a throwing generator the turn does not
complete with any (fallback) reply — `getAgentResponse` returns an error, so
no apology string is appended and no reply is produced. -/
theorem gen_failure_no_fallback :
    isOkE (getAgentResponse (fun _ => Except.error ()) emptyHistories "hi" "call-1") = false :=
  rfl

/-- Claim C10: a successful `getAgentResponse(userText, callSid)` changes only
the history stored under `callSid` — every other call identifier keeps its
history — and the entry for `callSid` becomes its previous value (or the
seed `[systemPrompt]`) with exactly two entries appended: the user entry with
`userText`, then an assistant entry whose content is the returned reply. -/
theorem getAgentResponse_frame (gen : List ChatMsg → Except Unit String)
    (hist : Histories) (u c r : String) (hOut : Histories)
    (h : getAgentResponse gen hist u c = Except.ok (r, hOut)) :
    (∀ sid, sid ≠ c → hOut sid = hist sid) ∧
    hOut c = some (((hist c).getD [systemPrompt])
      ++ [ChatMsg.mk Role.user u, ChatMsg.mk Role.assistant r]) := by
  unfold getAgentResponse at h
  cases hg : gen (((hist c).getD [systemPrompt]) ++ [ChatMsg.mk Role.user u]) with
  | error e =>
      simp only [hg] at h
      exact Except.noConfusion h
  | ok reply =>
      simp only [hg, Except.ok.injEq, Prod.mk.injEq] at h
      obtain ⟨hr, hh⟩ := h
      constructor
      · intro sid hs
        rw [← hh]
        simp [hs]
      · rw [← hh]
        simp [hr]

/-- A concrete successful generator for the claim C10 witness. -/
def wGen : List ChatMsg → Except Unit String := fun _ => Except.ok "hey"

/-- The concrete output map for the claim C10 witness. -/
def wHist : Histories := fun sid =>
  if sid = "call-1" then
    some [systemPrompt, ChatMsg.mk Role.user "hi", ChatMsg.mk Role.assistant "hey"]
  else none

/-- Claim C10 witness: the frame property at concrete inputs. -/
theorem getAgentResponse_frame_witness :
    (∀ sid, sid ≠ "call-1" → wHist sid = emptyHistories sid) ∧
    wHist "call-1" = some (((emptyHistories "call-1").getD [systemPrompt])
      ++ [ChatMsg.mk Role.user "hi", ChatMsg.mk Role.assistant "hey"]) :=
  getAgentResponse_frame wGen emptyHistories "hi" "call-1" "hey" wHist rfl

/-- The standard base64 alphabet used by `Buffer.toString("base64")`. -/
def b64Alphabet : List Char :=
  ['A', 'B', 'C', 'D', 'E', 'F', 'G', 'H', 'I', 'J', 'K', 'L', 'M',
   'N', 'O', 'P', 'Q', 'R', 'S', 'T', 'U', 'V', 'W', 'X', 'Y', 'Z',
   'a', 'b', 'c', 'd', 'e', 'f', 'g', 'h', 'i', 'j', 'k', 'l', 'm',
   'n', 'o', 'p', 'q', 'r', 's', 't', 'u', 'v', 'w', 'x', 'y', 'z',
   '0', '1', '2', '3', '4', '5', '6', '7', '8', '9', '+', '/']

/-- The base64 digit for a 6-bit value. -/
def sextetChar (n : Nat) : Char :=
  b64Alphabet.getD n '?'

/-- The 6-bit value of a base64 digit. -/
def charSextet (c : Char) : Nat :=
  b64Alphabet.indexOf c

/--
Base64 encoding of a byte sequence with `=` padding, as produced by
`audioBuffer.toString("base64")` in the `transcriptReceived` listener
(src/index.js line 121).  Bytes are naturals below 256.
-/
def b64encode : List Nat → List Char
  | [] => []
  | [b0] =>
      [sextetChar (b0 / 4), sextetChar (b0 % 4 * 16), '=', '=']
  | [b0, b1] =>
      [sextetChar (b0 / 4), sextetChar (b0 % 4 * 16 + b1 / 16),
       sextetChar (b1 % 16 * 4), '=']
  | b0 :: b1 :: b2 :: rest =>
      sextetChar (b0 / 4) :: sextetChar (b0 % 4 * 16 + b1 / 16) ::
      sextetChar (b1 % 16 * 4 + b2 / 64) :: sextetChar (b2 % 64) ::
      b64encode rest

/--
Modelled from the spec: the Audio Frame Codec's
`decode(payload: base64 string) -> raw bytes` direction (spec section 4.2).
The source never decodes base64 (it only encodes via
`Buffer.toString("base64")`), so the decode direction of the codec is not in
src/; this is standard base64 decoding of canonically padded input, matching
Node's `Buffer.from(payload, "base64")` on such input.
-/
def b64decode : List Char → List Nat
  | c0 :: c1 :: c2 :: c3 :: rest =>
      if c2 = '=' then
        [charSextet c0 * 4 + charSextet c1 / 16]
      else if c3 = '=' then
        [charSextet c0 * 4 + charSextet c1 / 16,
         charSextet c1 % 16 * 16 + charSextet c2 / 4]
      else
        (charSextet c0 * 4 + charSextet c1 / 16) ::
        (charSextet c1 % 16 * 16 + charSextet c2 / 4) ::
        (charSextet c2 % 4 * 64 + charSextet c3) ::
        b64decode rest
  | _ => []

/-- Encoding packaged as a `String`, as the wire payload is. -/
def b64encodeS (l : List Nat) : String :=
  String.mk (b64encode l)

/-- Decoding of a `String` payload. -/
def b64decodeS (s : String) : List Nat :=
  b64decode s.data

/-- Decoding inverts encoding on each 6-bit value, checked over all 64. -/
theorem charSextet_sextetChar_fin :
    ∀ m : Fin 64, charSextet (sextetChar m.val) = m.val := by
  decide

/-- Decoding inverts encoding on each 6-bit value. -/
theorem charSextet_sextetChar (n : Nat) (h : n < 64) :
    charSextet (sextetChar n) = n := by
  simpa using charSextet_sextetChar_fin ⟨n, h⟩

/-- No base64 digit is the padding character, checked over all 64. -/
theorem sextetChar_ne_pad_fin : ∀ m : Fin 64, sextetChar m.val ≠ '=' := by
  decide

/-- No base64 digit is the padding character. -/
theorem sextetChar_ne_pad (n : Nat) (h : n < 64) : sextetChar n ≠ '=' := by
  simpa using sextetChar_ne_pad_fin ⟨n, h⟩

/-- Decoding a base64 encoding recovers the original bytes. -/
theorem b64decode_b64encode :
    ∀ l : List Nat, (∀ x ∈ l, x < 256) → b64decode (b64encode l) = l
  | [], _ => by simp [b64encode, b64decode]
  | [b0], h => by
      have h0 : b0 < 256 := h b0 (by simp)
      simp only [b64encode, b64decode]
      rw [if_pos trivial]
      rw [charSextet_sextetChar (b0 / 4) (by omega),
        charSextet_sextetChar (b0 % 4 * 16) (by omega)]
      have : b0 / 4 * 4 + b0 % 4 * 16 / 16 = b0 := by omega
      rw [this]
  | [b0, b1], h => by
      have h0 : b0 < 256 := h b0 (by simp)
      have h1 : b1 < 256 := h b1 (by simp)
      simp only [b64encode, b64decode]
      rw [if_neg (sextetChar_ne_pad (b1 % 16 * 4) (by omega)), if_pos trivial]
      rw [charSextet_sextetChar (b0 / 4) (by omega),
        charSextet_sextetChar (b0 % 4 * 16 + b1 / 16) (by omega),
        charSextet_sextetChar (b1 % 16 * 4) (by omega)]
      have e0 : b0 / 4 * 4 + (b0 % 4 * 16 + b1 / 16) / 16 = b0 := by omega
      have e1 : (b0 % 4 * 16 + b1 / 16) % 16 * 16 + b1 % 16 * 4 / 4 = b1 := by omega
      rw [e0, e1]
  | b0 :: b1 :: b2 :: rest, h => by
      have h0 : b0 < 256 := h b0 (by simp)
      have h1 : b1 < 256 := h b1 (by simp)
      have h2 : b2 < 256 := h b2 (by simp)
      have ih := b64decode_b64encode rest (fun x hx => h x (by simp [hx]))
      simp only [b64encode, b64decode]
      rw [if_neg (sextetChar_ne_pad (b1 % 16 * 4 + b2 / 64) (by omega)),
        if_neg (sextetChar_ne_pad (b2 % 64) (by omega))]
      rw [charSextet_sextetChar (b0 / 4) (by omega),
        charSextet_sextetChar (b0 % 4 * 16 + b1 / 16) (by omega),
        charSextet_sextetChar (b1 % 16 * 4 + b2 / 64) (by omega),
        charSextet_sextetChar (b2 % 64) (by omega)]
      have e0 : b0 / 4 * 4 + (b0 % 4 * 16 + b1 / 16) / 16 = b0 := by omega
      have e1 : (b0 % 4 * 16 + b1 / 16) % 16 * 16 + (b1 % 16 * 4 + b2 / 64) / 4 = b1 := by
        omega
      have e2 : (b1 % 16 * 4 + b2 / 64) % 4 * 64 + b2 % 64 = b2 := by omega
      rw [e0, e1, e2, ih]

/-- Round-trip on `String` payloads produced by encoding. -/
theorem b64decodeS_b64encodeS (l : List Nat) (h : ∀ x ∈ l, x < 256) :
    b64decodeS (b64encodeS l) = l :=
  b64decode_b64encode l h

/-- Claim C9: for every audio payload — a base64 string obtained by encoding a
byte buffer, which is the only kind of audio payload the system produces —
decoding it via the Audio Frame Codec and re-encoding the resulting bytes
yields the original payload. -/
theorem b64_roundtrip (p : String) (b : List Nat) (hb : ∀ x ∈ b, x < 256)
    (hp : p = b64encodeS b) : b64encodeS (b64decodeS p) = p := by
  subst hp
  rw [b64decodeS_b64encodeS b hb]

/-- Claim C9 witness: the round trip at a concrete four-byte buffer. -/
theorem b64_roundtrip_witness :
    b64encodeS (b64decodeS (b64encodeS [0, 255, 16, 32])) = b64encodeS [0, 255, 16, 32] :=
  b64_roundtrip (b64encodeS [0, 255, 16, 32]) [0, 255, 16, 32] (by decide) rfl

/-- A Deepgram transcript callback message, reduced to the fields relevant
here: `channel.alternatives[0].transcript` and the top-level final flag the
listener never reads. -/
structure DgMsg where
  transcript : String
  isFinal : Bool
  deriving DecidableEq

/-- Whitespace as stripped by JS `String.prototype.trim` (the common four
characters; JS also strips rarer Unicode spaces, irrelevant here). -/
def jsWhitespace (c : Char) : Bool :=
  c = ' ' ∨ c = '\t' ∨ c = '\n' ∨ c = '\r'

/-- JS `String.prototype.trim`: whitespace removed from both ends. -/
def jsTrim (s : String) : String :=
  String.mk (((s.data.dropWhile jsWhitespace).reverse.dropWhile jsWhitespace).reverse)

/-- The gate of the `transcriptReceived` listener (src/index.js line 107):
`transcript && transcript.trim() !== ""` — JS string truthiness plus a
non-blank trim.  The final flag is not consulted. -/
def triggersTurn (m : DgMsg) : Bool :=
  m.transcript != "" && jsTrim m.transcript != ""

/-- What `dgLive.send` receives: decoded audio bytes, or a text string.  The
source hands it the base64 payload string as-is (src/index.js line 129). -/
inductive AsrInput
  | bytes (b : List Nat)
  | text (s : String)
  deriving DecidableEq

/-- An outbound WebSocket event sent with `ws.send`.  The source only ever
produces `media` events; `mark` is in the wire protocol but never sent. -/
inductive OutEvent
  | media (payload : String)
  | mark (name : String)
  deriving DecidableEq

/-- A successfully parsed inbound WebSocket message, reduced to the fields
the handler reads: `data.event` and `data.media?.payload`. -/
structure WsData where
  event : String
  payload : Option String
  deriving DecidableEq

/-- A JS exception escaping the message handler (`JSON.parse` throw). -/
inductive JsError
  | parseError
  deriving DecidableEq

/-- Observable per-connection state: audio handed to the ASR handle in order,
outbound events sent on the WebSocket in order, and the history map. -/
structure SessState where
  forwarded : List AsrInput
  sent : List OutEvent
  histories : Histories

/-- The state of a fresh connection. -/
def initState : SessState :=
  ⟨[], [], emptyHistories⟩

/--
Embedding of the `ws.on("message")` handler (src/index.js lines 126-131).
`raw = none` stands for a message on which `JSON.parse` throws; the throw is
uncaught, so it escapes the handler as an error.  For parsed data the handler
forwards `data.media.payload` — the base64 string itself, undecoded — to the
ASR handle whenever `data.event === "media"` and the payload is truthy.
-/
def handleWsMessage (raw : Option WsData) (s : SessState) : Except JsError SessState :=
  match raw with
  | none => Except.error JsError.parseError
  | some d =>
      if d.event = "media" ∧ d.payload.getD "" ≠ "" then
        Except.ok { s with forwarded := s.forwarded ++ [AsrInput.text (d.payload.getD "")] }
      else
        Except.ok s

/-- Runs the message handler over a sequence of inbound messages in arrival
order; an uncaught throw stops the connection's processing. -/
def runWsMessages (msgs : List (Option WsData)) (s : SessState) : Except JsError SessState :=
  match msgs with
  | [] => Except.ok s
  | m :: rest =>
      match handleWsMessage m s with
      | Except.error e => Except.error e
      | Except.ok sNext => runWsMessages rest sNext

/-- A well-formed inbound media message carrying a payload. -/
def mediaMsg (p : String) : WsData :=
  ⟨"media", some p⟩

/-- What one parsed message contributes to the ASR stream, if anything. -/
def fwdOf (d : WsData) : Option AsrInput :=
  if d.event = "media" ∧ d.payload.getD "" ≠ "" then
    some (AsrInput.text (d.payload.getD ""))
  else none

/--
Embedding of the `transcriptReceived` listener body (src/index.js lines
104-124): gate on a non-blank transcript, run `getAgentResponse` for the
hard-coded call "call-1", synthesize the reply with the external TTS (`tts`,
standing for `generateSpeech`, which returns the concatenated byte buffer),
and send a single `media` event whose payload is the base64 of the whole
buffer.  A thrown generation error escapes the listener.
-/
def handleTranscript (gen : List ChatMsg → Except Unit String) (tts : String → List Nat)
    (m : DgMsg) (s : SessState) : Except Histories SessState :=
  if triggersTurn m then
    match getAgentResponse gen s.histories m.transcript "call-1" with
    | Except.error hErr => Except.error hErr
    | Except.ok (reply, hNext) =>
        Except.ok { s with
          histories := hNext,
          sent := s.sent ++ [OutEvent.media (b64encodeS (tts reply))] }
  else Except.ok s

/-- Runs the transcript listener over a burst of callback messages in
delivery order. -/
def runTranscripts (gen : List ChatMsg → Except Unit String) (tts : String → List Nat)
    (msgs : List DgMsg) (s : SessState) : Except Histories SessState :=
  match msgs with
  | [] => Except.ok s
  | m :: rest =>
      match handleTranscript gen tts m s with
      | Except.error hErr => Except.error hErr
      | Except.ok sNext => runTranscripts gen tts rest sNext

/-- Number of `media` events in an outbound event list. -/
def mediaCount (l : List OutEvent) : Nat :=
  l.countP (fun e => match e with | OutEvent.media _ => true | _ => false)

/-- Number of `mark` events in an outbound event list. -/
def markCount (l : List OutEvent) : Nat :=
  l.countP (fun e => match e with | OutEvent.mark _ => true | _ => false)

/-- The outbound events of a run that did not throw (empty on a throw). -/
def sentOf (e : Except Histories SessState) : List OutEvent :=
  match e with
  | Except.ok s => s.sent
  | Except.error _ => []

/-- The forwarded ASR inputs of a message-handler run (empty on a throw). -/
def forwardedOf (e : Except JsError SessState) : List AsrInput :=
  match e with
  | Except.ok s => s.forwarded
  | Except.error _ => []

/-- Claim C2 (amended): the transcript listener triggers a turn if and only
if the transcript's trimmed text is non-empty — the final/interim flag is
never consulted, so non-empty interim results drive turns too. -/
theorem triggers_iff_nonempty_trim (m : DgMsg) :
    triggersTurn m = true ↔ jsTrim m.transcript ≠ "" := by
  unfold triggersTurn
  rcases m with ⟨t, f⟩
  simp only [Bool.and_eq_true, bne_iff_ne, ne_eq]
  constructor
  · rintro ⟨-, h2⟩
    exact h2
  · intro h
    refine ⟨?_, h⟩
    intro he
    subst he
    exact h rfl

/-- Claim C2 counterexample: an interim (non-final) transcript with non-empty
text triggers downstream turn processing, contradicting the claim that
processing happens only when the transcript is marked final. -/
theorem interim_nonempty_triggers_turn :
    triggersTurn (DgMsg.mk "hello" false) = true ∧
    (DgMsg.mk "hello" false).isFinal = false := by
  decide

/-- Claim C6 (amended): for every inbound media message with a truthy payload,
the payload is forwarded to the ASR stream as the base64 string itself — the
source never decodes it to raw bytes before `dgLive.send`. -/
theorem media_payload_forwarded_as_text (p : String) (s : SessState) (hp : p ≠ "") :
    handleWsMessage (some (mediaMsg p)) s =
      Except.ok { s with forwarded := s.forwarded ++ [AsrInput.text p] } := by
  simp [handleWsMessage, mediaMsg, hp]

/-- Claim C6 witness: the forwarding equation at a concrete payload. -/
theorem media_payload_forwarded_as_text_witness :
    handleWsMessage (some (mediaMsg "AAAA")) initState =
      Except.ok { initState with forwarded := initState.forwarded ++ [AsrInput.text "AAAA"] } :=
  media_payload_forwarded_as_text "AAAA" initState (by decide)

/-- Claim C6 counterexample: for the payload "AAAA" the handler forwards the
base64 text itself, which is not the decoded byte sequence `[0, 0, 0]` the
claim says is forwarded. -/
theorem payload_forwarded_undecoded :
    forwardedOf (handleWsMessage (some (mediaMsg "AAAA")) initState) =
      [AsrInput.text "AAAA"] ∧
    b64decodeS "AAAA" = [0, 0, 0] ∧
    AsrInput.text "AAAA" ≠ AsrInput.bytes (b64decodeS "AAAA") := by
  decide

/-- Claim C7 (amended): a malformed inbound message makes `JSON.parse` throw;
the handler does not catch it, so the error escapes (no warning-and-ignore),
and the connection's message processing does not continue past it. -/
theorem malformed_message_error_propagates (msgs : List (Option WsData)) (s : SessState) :
    handleWsMessage none s = Except.error JsError.parseError ∧
    runWsMessages (none :: msgs) s = Except.error JsError.parseError :=
  ⟨rfl, rfl⟩

/-- Claim C7 counterexample: a malformed message is not handled successfully —
the handler raises instead of ignoring it with a logged warning. -/
theorem malformed_message_raises :
    isOkE (handleWsMessage none initState) = false :=
  rfl

/-- Claim C8: over any sequence of well-formed inbound messages, the audio
handed to the ASR handle is exactly the payload of each media-with-payload
message, in arrival order (a `filterMap` of the arrival sequence): no
reordering and no drops of media frames. -/
theorem forwarding_preserves_arrival_order (ds : List WsData) :
    ∀ s : SessState, runWsMessages (ds.map some) s =
      Except.ok { s with forwarded := s.forwarded ++ ds.filterMap fwdOf } := by
  induction ds with
  | nil =>
      intro s
      simp [runWsMessages]
  | cons d rest ih =>
      intro s
      by_cases hc : d.event = "media" ∧ d.payload.getD "" ≠ ""
      · simp only [List.map_cons, runWsMessages, handleWsMessage, if_pos hc, ih]
        simp [List.filterMap_cons, fwdOf, if_pos hc, List.append_assoc]
      · simp only [List.map_cons, runWsMessages, handleWsMessage, if_neg hc, ih]
        simp [List.filterMap_cons, fwdOf, if_neg hc]

/-- One triggering transcript with a non-throwing generator: the listener
completes the turn, updates the history map, and appends a single `media`
event with the base64 of the whole synthesized buffer. -/
theorem handleTranscript_step (g : List ChatMsg → String) (tts : String → List Nat)
    (m : DgMsg) (s : SessState) (hm : triggersTurn m = true) :
    handleTranscript (okGen g) tts m s =
      Except.ok ⟨s.forwarded,
        s.sent ++ [OutEvent.media (b64encodeS (tts (turnReply g s.histories m.transcript)))],
        turnHistories g s.histories m.transcript⟩ := by
  unfold handleTranscript
  rw [hm]
  rfl

/-- Claim C4 (amended): a completed turn sends the synthesized audio as ONE
`media` event whose payload is the base64 of the entire buffer — the buffer
is not split into 160-byte frames, no inter-frame pacing exists, and no
end-of-playback `mark` event is ever sent. -/
theorem one_media_event_per_turn (g : List ChatMsg → String) (tts : String → List Nat)
    (m : DgMsg) (s : SessState) (hm : triggersTurn m = true) :
    ∃ sNext, handleTranscript (okGen g) tts m s = Except.ok sNext ∧
      sNext.sent = s.sent ++
        [OutEvent.media (b64encodeS (tts (turnReply g s.histories m.transcript)))] ∧
      mediaCount sNext.sent = mediaCount s.sent + 1 ∧
      markCount sNext.sent = markCount s.sent := by
  refine ⟨_, handleTranscript_step g tts m s hm, rfl, ?_, ?_⟩
  · simp [mediaCount, List.countP_append, List.countP_cons]
  · simp [markCount, List.countP_append, List.countP_cons]

/-- Claim C4 witness: the single-media-event property at concrete inputs. -/
theorem one_media_event_per_turn_witness :
    ∃ sNext, handleTranscript (okGen (fun _ => "hey")) (fun _ => [0])
        (DgMsg.mk "hello" true) initState = Except.ok sNext ∧
      sNext.sent = initState.sent ++
        [OutEvent.media (b64encodeS ((fun _ => ([0] : List Nat))
          (turnReply (fun _ => "hey") initState.histories
            (DgMsg.mk "hello" true).transcript)))] ∧
      mediaCount sNext.sent = mediaCount initState.sent + 1 ∧
      markCount sNext.sent = markCount initState.sent :=
  one_media_event_per_turn (fun _ => "hey") (fun _ => [0])
    (DgMsg.mk "hello" true) initState (by decide)

/-- Claim C4 counterexample: a turn whose synthesized audio is 320 bytes is
sent as one `media` event, not the ceil(320 / 160) = 2 the claim requires,
and no `mark` event is sent, not the exactly-one the claim requires. -/
theorem single_buffer_not_framed_no_mark :
    mediaCount (sentOf (handleTranscript (okGen (fun _ => "hey"))
        (fun _ => List.replicate 320 0) (DgMsg.mk "hello" true) initState)) = 1 ∧
    (320 + 160 - 1) / 160 = 2 ∧
    markCount (sentOf (handleTranscript (okGen (fun _ => "hey"))
        (fun _ => List.replicate 320 0) (DgMsg.mk "hello" true) initState)) = 0 := by
  decide

/-- Claim C1 (amended): there is no `turnInFlight` guard in the source — every
finalized (indeed every non-blank) transcript in a burst starts its own turn,
so a burst of N triggering finals yields N replies (N `media` sends), not at
most one; nothing is discarded. -/
theorem no_turn_guard_every_final_replies (g : List ChatMsg → String)
    (tts : String → List Nat) (msgs : List DgMsg) :
    ∀ s : SessState, (∀ m ∈ msgs, triggersTurn m = true) →
      ∃ sEnd, runTranscripts (okGen g) tts msgs s = Except.ok sEnd ∧
        mediaCount sEnd.sent = mediaCount s.sent + msgs.length := by
  induction msgs with
  | nil =>
      intro s _
      exact ⟨s, rfl, by simp⟩
  | cons m rest ih =>
      intro s h
      have hm : triggersTurn m = true := h m (List.mem_cons_self m rest)
      obtain ⟨sEnd, hrun, hcount⟩ :=
        ih ⟨s.forwarded,
          s.sent ++ [OutEvent.media (b64encodeS (tts (turnReply g s.histories m.transcript)))],
          turnHistories g s.histories m.transcript⟩
          (fun x hx => h x (List.mem_cons_of_mem m hx))
      refine ⟨sEnd, ?_, ?_⟩
      · simp only [runTranscripts, handleTranscript_step g tts m s hm]
        exact hrun
      · rw [hcount]
        simp [mediaCount, List.countP_append, List.countP_cons]
        omega

/-- Claim C1 witness: a burst of two triggering finals at concrete inputs. -/
theorem no_turn_guard_every_final_replies_witness :
    ∃ sEnd, runTranscripts (okGen (fun _ => "hey")) (fun _ => [0])
        [DgMsg.mk "hello" true, DgMsg.mk "bye" true] initState = Except.ok sEnd ∧
      mediaCount sEnd.sent = mediaCount initState.sent +
        [DgMsg.mk "hello" true, DgMsg.mk "bye" true].length :=
  no_turn_guard_every_final_replies (fun _ => "hey") (fun _ => [0])
    [DgMsg.mk "hello" true, DgMsg.mk "bye" true] initState (by decide)

/-- Claim C1 counterexample: two finalized transcripts delivered during one
burst produce two replies (two `media` sends), violating the claimed
at-most-one-reply policy. -/
theorem burst_two_finals_two_replies :
    ¬ (mediaCount (sentOf (runTranscripts (okGen (fun _ => "hey")) (fun _ => [0])
        [DgMsg.mk "hello" true, DgMsg.mk "bye" true] initState)) ≤ 1) := by
  decide
